import Mathlib

/-!
Shallow embedding of `run_pricing_engine` from `src/services/pricing.py`.

Python floats are modelled as exact rationals (`ℚ`); Python's builtin
`round` (banker's rounding, ties to even) is modelled by `roundHalfEven`;
`numpy.clip` by `npClip`; Python `int()` truncation by `pyInt`.
-/

/-- Python builtin `round(x)`: nearest integer, ties go to the even integer. -/
def roundHalfEven (x : ℚ) : ℤ :=
  let f := ⌊x⌋
  let r := x - (f : ℚ)
  if r < (5/10) then f
  else if (5/10) < r then f + 1
  else if f % 2 = 0 then f else f + 1

/-- Python `round(x, 2)`. -/
def round2 (x : ℚ) : ℚ := (roundHalfEven (x * 100) : ℚ) / 100

/-- Python `round(x, 1)`. -/
def round1 (x : ℚ) : ℚ := (roundHalfEven (x * 10) : ℚ) / 10

/-- The recurring Python idiom `round(x * 2) / 2.0`: round to nearest 0.5. -/
def halfRound (x : ℚ) : ℚ := (roundHalfEven (x * 2) : ℚ) / 2

/-- `numpy.clip(x, lo, hi) = min(max(x, lo), hi)`. -/
def npClip (x lo hi : ℚ) : ℚ := min (max x lo) hi

/-- Python `int(x)` on a float: truncation toward zero. -/
def pyInt (x : ℚ) : ℤ := if x < 0 then -⌊-x⌋ else ⌊x⌋

/-- The embedded `pricing_test` dictionary (`test_recommendation` in the source). -/
structure PricingTest where
  tier_name : String
  current_price : ℚ
  test_price : ℚ
  segment : String
  traffic_fraction : ℤ
  duration_days : ℤ
  expected_conversion_change_pct : ℚ
  expected_mrr_change_pct : ℚ
  risk_level : String
  fallback_rule : String
deriving DecidableEq

/-- The dictionary returned by `run_pricing_engine`. -/
structure PricingResult where
  suggested_sub_price : ℚ
  ppv_low : ℚ
  ppv_high : ℚ
  implied_revenue_per_fan : ℚ
  target_sub_penetration : ℚ
  target_arpu : ℚ
  uplift_pct_vs_current : ℚ
  pricing_test : PricingTest
deriving DecidableEq

/-- `followers = max(int(followers), 1)`. -/
def clampedFollowers (followers : ℤ) : ℤ := max followers 1

/-- `subs = max(int(estimated_subscribers or followers), 1)`; Python `or`
returns `followers` when `estimated_subscribers` is falsy (zero). -/
def clampedSubs (followers estimated_subscribers : ℤ) : ℤ :=
  max (if estimated_subscribers = 0 then followers else estimated_subscribers) 1

/-- `views = max(float(avg_views), 1.0)`. -/
def clampedViews (avg_views : ℚ) : ℚ := max avg_views 1

/-- `eng = max(float(engagement_rate), 0.1)`. -/
def clampedEng (engagement_rate : ℚ) : ℚ := max engagement_rate (1/10)

/-- `cpm = max(float(avg_cpm), 0.5)`. -/
def clampedCpm (avg_cpm : ℚ) : ℚ := max avg_cpm (5/10)

/-- `current_price = max(float(current_price), 1.0)`. -/
def clampedPrice (current_price : ℚ) : ℚ := max current_price 1

/-- `implied_revenue_per_fan = (views * 30 / 1000.0 * cpm) / followers`. -/
def impliedRevenuePerFan (views cpm : ℚ) (followers : ℤ) : ℚ :=
  (views * 30 / 1000 * cpm) / (followers : ℚ)

/-- `target_sub_penetration = np.clip(eng / 10.0, 0.15, 0.35)`, then the
defensive branch `if target_sub_penetration <= 0` resetting it to 0.2. -/
def targetPenetration (eng : ℚ) : ℚ :=
  let t := npClip (eng / 10) (15/100) (35/100)
  if t ≤ 0 then (2/10) else t

/-- `target_arpu = np.clip(implied_revenue_per_fan * 4, 3.0, 30.0)`. -/
def targetArpu (irpf : ℚ) : ℚ := npClip (irpf * 4) 3 30

/-- `suggested_sub_price = round(np.clip(arpu / penetration, 5.0, 50.0) * 2) / 2.0`. -/
def suggestedSubPrice (arpu pen : ℚ) : ℚ := halfRound (npClip (arpu / pen) 5 50)

/-- Python `str.lower()`, modelled as a character-wise lowercase map. -/
def pyLower (s : String) : String := ⟨s.data.map Char.toLower⟩

/-- `risk_profile = (risk_profile or "balanced").lower()`, then fall back to
`"balanced"` when not in the recognized set. -/
def normalizeRiskProfile (risk_profile : String) : String :=
  let r := pyLower (if risk_profile = "" then "balanced" else risk_profile)
  if r = "conservative" ∨ r = "balanced" ∨ r = "aggressive" then r else "balanced"

/-- The three-way branch on `delta_pct` selecting the raw A/B test price. -/
def testPriceFromDelta (delta suggested cp : ℚ) (rp : String) : ℚ :=
  if delta < -10 then halfRound (cp * (8/10))
  else if -10 ≤ delta ∧ delta ≤ 10 then suggested
  else if rp = "conservative" then halfRound (cp * (115/100))
  else if rp = "aggressive" then suggested
  else halfRound (cp * (125/100))

/-- Test price: branch on `delta_pct = (suggested - cp) / cp * 100`, then
`np.clip(test_price, 3.0, 100.0)`. -/
def testPrice (suggested cp : ℚ) (rp : String) : ℚ :=
  npClip (testPriceFromDelta ((suggested - cp) / cp * 100) suggested cp rp) 3 100

/-- `(duration_days, traffic_fraction)` from the risk profile. -/
def durationTraffic (rp : String) : ℤ × ℚ :=
  if rp = "conservative" then (21, (3/10))
  else if rp = "aggressive" then (10, (8/10))
  else (14, (5/10))

/-- The branch on `price_change_pct` computing
`(expected_conv_change, expected_mrr_change, risk_level)`. -/
def effectsFromPcp (pcp : ℚ) : ℚ × ℚ × String :=
  if pcp < 0 then
    let ecc := min (|pcp| * (8/10)) 40
    (ecc, max (ecc * (6/10)) 3, "low")
  else if 0 ≤ pcp ∧ pcp ≤ 20 then
    (-pcp * (5/10), max (pcp * (4/10)) 2, "medium")
  else
    (-(min (pcp * (8/10)) 50), max (pcp * (3/10)) 5, "high")

/-- The full `run_pricing_engine` from `src/services/pricing.py`, embedded
over exact rationals. -/
def run_pricing_engine (followers estimated_subscribers : ℤ)
    (avg_views engagement_rate avg_cpm current_price : ℚ)
    (risk_profile : String) : PricingResult :=
  let fl := clampedFollowers followers
  let _subs := clampedSubs followers estimated_subscribers
  let views := clampedViews avg_views
  let cpm := clampedCpm avg_cpm
  let cp := clampedPrice current_price
  let irpf := impliedRevenuePerFan views cpm fl
  let pen := targetPenetration (clampedEng engagement_rate)
  let arpu := targetArpu irpf
  let ssp := suggestedSubPrice arpu pen
  let ppv_low := round2 (max 4 (ssp * (6/10)))
  let ppv_high := round2 (max (ppv_low + 2) (ssp * 2))
  let uplift_ratio := if cp = 0 then 1 else ssp / cp
  let uplift_pct := round2 ((uplift_ratio - 1) * 100)
  let rp := normalizeRiskProfile risk_profile
  let tp := testPrice ssp cp rp
  let dt := durationTraffic rp
  let eff := effectsFromPcp ((tp - cp) / cp * 100)
  { suggested_sub_price := ssp
    ppv_low := ppv_low
    ppv_high := ppv_high
    implied_revenue_per_fan := round2 irpf
    target_sub_penetration := round1 (pen * 100)
    target_arpu := round2 arpu
    uplift_pct_vs_current := uplift_pct
    pricing_test :=
      { tier_name := "Main subscription tier"
        current_price := round2 cp
        test_price := round2 tp
        segment := "New subscribers only"
        traffic_fraction := pyInt (dt.2 * 100)
        duration_days := dt.1
        expected_conversion_change_pct := round1 eff.1
        expected_mrr_change_pct := round1 eff.2.1
        risk_level := eff.2.2
        fallback_rule := "Revert to current price if churn on existing subs rises >5%." } }

/-- Division returning `none` on a zero divisor, modelling Python's
`ZeroDivisionError`. -/
def safeDiv (a b : ℚ) : Option ℚ := if b = 0 then none else some (a / b)

/-- `run_pricing_engine` with every division whose divisor is a computed
value (followers, penetration, current price) made fallible, modelling the
possibility of a `ZeroDivisionError` in the Python source. -/
def run_pricing_engine_checked (followers estimated_subscribers : ℤ)
    (avg_views engagement_rate avg_cpm current_price : ℚ)
    (risk_profile : String) : Option PricingResult :=
  let fl := clampedFollowers followers
  let _subs := clampedSubs followers estimated_subscribers
  let views := clampedViews avg_views
  let cpm := clampedCpm avg_cpm
  let cp := clampedPrice current_price
  (safeDiv (views * 30 / 1000 * cpm) (fl : ℚ)).bind fun irpf =>
  let pen := targetPenetration (clampedEng engagement_rate)
  let arpu := targetArpu irpf
  (safeDiv arpu pen).bind fun s0 =>
  let ssp := halfRound (npClip s0 5 50)
  let ppv_low := round2 (max 4 (ssp * (6/10)))
  let ppv_high := round2 (max (ppv_low + 2) (ssp * 2))
  (if cp = 0 then some 1 else safeDiv ssp cp).bind fun uplift_ratio =>
  let uplift_pct := round2 ((uplift_ratio - 1) * 100)
  let rp := normalizeRiskProfile risk_profile
  (safeDiv (ssp - cp) cp).bind fun d =>
  let tp := npClip (testPriceFromDelta (d * 100) ssp cp rp) 3 100
  let dt := durationTraffic rp
  (safeDiv (tp - cp) cp).bind fun q =>
  let eff := effectsFromPcp (q * 100)
  some
  { suggested_sub_price := ssp
    ppv_low := ppv_low
    ppv_high := ppv_high
    implied_revenue_per_fan := round2 irpf
    target_sub_penetration := round1 (pen * 100)
    target_arpu := round2 arpu
    uplift_pct_vs_current := uplift_pct
    pricing_test :=
      { tier_name := "Main subscription tier"
        current_price := round2 cp
        test_price := round2 tp
        segment := "New subscribers only"
        traffic_fraction := pyInt (dt.2 * 100)
        duration_days := dt.1
        expected_conversion_change_pct := round1 eff.1
        expected_mrr_change_pct := round1 eff.2.1
        risk_level := eff.2.2
        fallback_rule := "Revert to current price if churn on existing subs rises >5%." } }

/-! ### Helper lemmas about rounding and clipping -/

theorem roundHalfEven_eq_or (x : ℚ) :
    roundHalfEven x = ⌊x⌋ ∨ roundHalfEven x = ⌊x⌋ + 1 := by
  unfold roundHalfEven
  dsimp only
  split
  · exact Or.inl rfl
  split
  · exact Or.inr rfl
  split
  · exact Or.inl rfl
  · exact Or.inr rfl

theorem roundHalfEven_intCast (n : ℤ) : roundHalfEven (n : ℚ) = n := by
  unfold roundHalfEven
  norm_num

theorem le_roundHalfEven {n : ℤ} {x : ℚ} (h : (n : ℚ) ≤ x) : n ≤ roundHalfEven x := by
  have hf : n ≤ ⌊x⌋ := Int.le_floor.mpr h
  rcases roundHalfEven_eq_or x with he | he <;> omega

theorem roundHalfEven_le {n : ℤ} {x : ℚ} (h : x ≤ (n : ℚ)) : roundHalfEven x ≤ n := by
  have hf : ⌊x⌋ ≤ n := by
    have h1 := Int.floor_mono h
    simpa using h1
  unfold roundHalfEven
  dsimp only
  split
  · exact hf
  · rename_i hlt
    push_neg at hlt
    have hx : (⌊x⌋ : ℚ) < x := by linarith
    have hn : ⌊x⌋ < n := by
      by_contra hc
      push_neg at hc
      have hnq : (n : ℚ) ≤ (⌊x⌋ : ℚ) := by exact_mod_cast hc
      linarith
    split
    · omega
    split <;> omega

theorem le_round2 {m : ℤ} {x : ℚ} (h : (m : ℚ) / 100 ≤ x) : (m : ℚ) / 100 ≤ round2 x := by
  unfold round2
  have h1 : (m : ℚ) ≤ x * 100 := by linarith
  have h2 : (m : ℚ) ≤ (roundHalfEven (x * 100) : ℚ) := by exact_mod_cast le_roundHalfEven h1
  linarith

theorem round2_le {m : ℤ} {x : ℚ} (h : x ≤ (m : ℚ) / 100) : round2 x ≤ (m : ℚ) / 100 := by
  unfold round2
  have h1 : x * 100 ≤ (m : ℚ) := by linarith
  have h2 : (roundHalfEven (x * 100) : ℚ) ≤ (m : ℚ) := by exact_mod_cast roundHalfEven_le h1
  linarith

theorem le_round1 {m : ℤ} {x : ℚ} (h : (m : ℚ) / 10 ≤ x) : (m : ℚ) / 10 ≤ round1 x := by
  unfold round1
  have h1 : (m : ℚ) ≤ x * 10 := by linarith
  have h2 : (m : ℚ) ≤ (roundHalfEven (x * 10) : ℚ) := by exact_mod_cast le_roundHalfEven h1
  linarith

theorem round1_le {m : ℤ} {x : ℚ} (h : x ≤ (m : ℚ) / 10) : round1 x ≤ (m : ℚ) / 10 := by
  unfold round1
  have h1 : x * 10 ≤ (m : ℚ) := by linarith
  have h2 : (roundHalfEven (x * 10) : ℚ) ≤ (m : ℚ) := by exact_mod_cast roundHalfEven_le h1
  linarith

theorem le_halfRound {m : ℤ} {x : ℚ} (h : (m : ℚ) / 2 ≤ x) : (m : ℚ) / 2 ≤ halfRound x := by
  unfold halfRound
  have h1 : (m : ℚ) ≤ x * 2 := by linarith
  have h2 : (m : ℚ) ≤ (roundHalfEven (x * 2) : ℚ) := by exact_mod_cast le_roundHalfEven h1
  linarith

theorem halfRound_le {m : ℤ} {x : ℚ} (h : x ≤ (m : ℚ) / 2) : halfRound x ≤ (m : ℚ) / 2 := by
  unfold halfRound
  have h1 : x * 2 ≤ (m : ℚ) := by linarith
  have h2 : (roundHalfEven (x * 2) : ℚ) ≤ (m : ℚ) := by exact_mod_cast roundHalfEven_le h1
  linarith

theorem round2_half_int (k : ℤ) : round2 ((k : ℚ) / 2) = (k : ℚ) / 2 := by
  unfold round2
  have h1 : (k : ℚ) / 2 * 100 = ((50 * k : ℤ) : ℚ) := by push_cast; ring
  rw [h1, roundHalfEven_intCast]
  push_cast; ring

theorem npClip_le_hi (x lo hi : ℚ) : npClip x lo hi ≤ hi := min_le_right _ _

theorem lo_le_npClip (x lo hi : ℚ) (h : lo ≤ hi) : lo ≤ npClip x lo hi :=
  le_min (le_max_right x lo) h

theorem targetPenetration_bounds (e : ℚ) :
    15/100 ≤ targetPenetration e ∧ targetPenetration e ≤ 35/100 := by
  unfold targetPenetration
  dsimp only
  split
  · norm_num
  · exact ⟨lo_le_npClip _ _ _ (by norm_num), npClip_le_hi _ _ _⟩

theorem targetPenetration_pos (e : ℚ) : 0 < targetPenetration e :=
  lt_of_lt_of_le (by norm_num) (targetPenetration_bounds e).1

theorem targetArpu_bounds (x : ℚ) : 3 ≤ targetArpu x ∧ targetArpu x ≤ 30 :=
  ⟨lo_le_npClip _ _ _ (by norm_num), npClip_le_hi _ _ _⟩

theorem suggestedSubPrice_props (a p : ℚ) :
    5 ≤ suggestedSubPrice a p ∧ suggestedSubPrice a p ≤ 50 ∧
    ∃ k : ℤ, suggestedSubPrice a p = (k : ℚ) / 2 := by
  unfold suggestedSubPrice
  refine ⟨?_, ?_, ⟨roundHalfEven (npClip (a / p) 5 50 * 2), rfl⟩⟩
  · have h : ((10 : ℤ) : ℚ) / 2 ≤ npClip (a / p) 5 50 := by
      have := lo_le_npClip (a / p) 5 50 (by norm_num)
      push_cast; linarith
    have := le_halfRound h
    push_cast at this; linarith
  · have h : npClip (a / p) 5 50 ≤ ((100 : ℤ) : ℚ) / 2 := by
      have := npClip_le_hi (a / p) 5 50
      push_cast; linarith
    have := halfRound_le h
    push_cast at this; linarith

/-! ### Concrete evaluation: the spec's Scenario A inputs -/

theorem scenarioA_eval :
    run_pricing_engine 10000 10000 3000 (7/2) 20 12 "balanced" =
    { suggested_sub_price := 17/2
      ppv_low := 51/10
      ppv_high := 17
      implied_revenue_per_fan := 9/50
      target_sub_penetration := 35
      target_arpu := 3
      uplift_pct_vs_current := -2917/100
      pricing_test :=
        { tier_name := "Main subscription tier"
          current_price := 12
          test_price := 19/2
          segment := "New subscribers only"
          traffic_fraction := 50
          duration_days := 14
          expected_conversion_change_pct := 167/10
          expected_mrr_change_pct := 10
          risk_level := "low"
          fallback_rule := "Revert to current price if churn on existing subs rises >5%." } } := by
  have hrp : normalizeRiskProfile "balanced" = "balanced" := by decide
  have h1 : ("balanced" : String) ≠ "conservative" := by decide
  have h2 : ("balanced" : String) ≠ "aggressive" := by decide
  norm_num [run_pricing_engine, clampedFollowers, clampedSubs, clampedViews, clampedEng,
    clampedCpm, clampedPrice, impliedRevenuePerFan, targetPenetration, targetArpu,
    suggestedSubPrice, hrp, testPrice, testPriceFromDelta,
    durationTraffic, effectsFromPcp, npClip, halfRound, round2, round1, roundHalfEven, pyInt,
    min_def, max_def, abs_of_nonneg, abs_of_nonpos, Int.fract, h1, h2]

/-! ### The claims -/

/-- C1 counterexample: on the Scenario A inputs the engine does NOT return
the values the claim states (implied_revenue_per_fan = 1.8, target_arpu = 7.2,
suggested_sub_price = 20.5, test_price = 15.0,
expected_conversion_change_pct = -20.0, expected_mrr_change_pct = 7.5,
risk_level = "high"). -/
theorem C1_counterexample :
    ¬((run_pricing_engine 10000 10000 3000 (7/2) 20 12 "balanced").implied_revenue_per_fan = 18/10 ∧
      (run_pricing_engine 10000 10000 3000 (7/2) 20 12 "balanced").target_arpu = 72/10 ∧
      (run_pricing_engine 10000 10000 3000 (7/2) 20 12 "balanced").suggested_sub_price = 205/10 ∧
      (run_pricing_engine 10000 10000 3000 (7/2) 20 12 "balanced").pricing_test.test_price = 15 ∧
      (run_pricing_engine 10000 10000 3000 (7/2) 20 12 "balanced").pricing_test.expected_conversion_change_pct = -20 ∧
      (run_pricing_engine 10000 10000 3000 (7/2) 20 12 "balanced").pricing_test.expected_mrr_change_pct = 75/10 ∧
      (run_pricing_engine 10000 10000 3000 (7/2) 20 12 "balanced").pricing_test.risk_level = "high") := by
  rw [scenarioA_eval]
  intro h
  have := h.1
  norm_num at this

/-- C1 amended: on followers=10000, estimated_subscribers=10000, avg_views=3000,
engagement_rate=3.5, avg_cpm=20.0, current_price=12.0, risk_profile="balanced",
`run_pricing_engine` returns implied_revenue_per_fan = 0.18, target_arpu = 3.0,
suggested_sub_price = 8.5, and a pricing_test with test_price = 9.5,
expected_conversion_change_pct = 16.7, expected_mrr_change_pct = 10.0 and
risk_level = "low". -/
theorem C1_amended :
    (run_pricing_engine 10000 10000 3000 (7/2) 20 12 "balanced").implied_revenue_per_fan = 18/100 ∧
    (run_pricing_engine 10000 10000 3000 (7/2) 20 12 "balanced").target_arpu = 3 ∧
    (run_pricing_engine 10000 10000 3000 (7/2) 20 12 "balanced").suggested_sub_price = 85/10 ∧
    (run_pricing_engine 10000 10000 3000 (7/2) 20 12 "balanced").pricing_test.test_price = 95/10 ∧
    (run_pricing_engine 10000 10000 3000 (7/2) 20 12 "balanced").pricing_test.expected_conversion_change_pct = 167/10 ∧
    (run_pricing_engine 10000 10000 3000 (7/2) 20 12 "balanced").pricing_test.expected_mrr_change_pct = 10 ∧
    (run_pricing_engine 10000 10000 3000 (7/2) 20 12 "balanced").pricing_test.risk_level = "low" := by
  rw [scenarioA_eval]
  norm_num

/-- C2 counterexample: the `target_sub_penetration` field actually returned is
a percentage; on the Scenario A inputs it equals 35.0, outside [0.15, 0.35]. -/
theorem C2_counterexample :
    ¬((15/100 ≤ (run_pricing_engine 10000 10000 3000 (7/2) 20 12 "balanced").target_sub_penetration ∧
       (run_pricing_engine 10000 10000 3000 (7/2) 20 12 "balanced").target_sub_penetration ≤ 35/100) ∧
      (3 ≤ (run_pricing_engine 10000 10000 3000 (7/2) 20 12 "balanced").target_arpu ∧
       (run_pricing_engine 10000 10000 3000 (7/2) 20 12 "balanced").target_arpu ≤ 30)) := by
  rw [scenarioA_eval]
  intro h
  have := h.1.2
  norm_num at this

/-- C2 amended: for every input, the returned `target_sub_penetration` field
(a percentage) lies in [15.0, 35.0] — the internal penetration fraction lies
in [0.15, 0.35] — and the returned `target_arpu` field lies in [3.0, 30.0]. -/
theorem C2_amended (followers estimated_subscribers : ℤ)
    (avg_views engagement_rate avg_cpm current_price : ℚ) (risk_profile : String) :
    (15 ≤ (run_pricing_engine followers estimated_subscribers avg_views engagement_rate
        avg_cpm current_price risk_profile).target_sub_penetration ∧
     (run_pricing_engine followers estimated_subscribers avg_views engagement_rate
        avg_cpm current_price risk_profile).target_sub_penetration ≤ 35) ∧
    (15/100 ≤ targetPenetration (clampedEng engagement_rate) ∧
     targetPenetration (clampedEng engagement_rate) ≤ 35/100) ∧
    (3 ≤ (run_pricing_engine followers estimated_subscribers avg_views engagement_rate
        avg_cpm current_price risk_profile).target_arpu ∧
     (run_pricing_engine followers estimated_subscribers avg_views engagement_rate
        avg_cpm current_price risk_profile).target_arpu ≤ 30) := by
  have hpen := targetPenetration_bounds (clampedEng engagement_rate)
  have harpu := targetArpu_bounds (impliedRevenuePerFan (clampedViews avg_views)
    (clampedCpm avg_cpm) (clampedFollowers followers))
  simp only [run_pricing_engine]
  refine ⟨⟨?_, ?_⟩, hpen, ?_, ?_⟩
  · have h : ((150 : ℤ) : ℚ) / 10 ≤ targetPenetration (clampedEng engagement_rate) * 100 := by
      push_cast
      linarith [hpen.1]
    have := le_round1 h
    push_cast at this
    linarith
  · have h : targetPenetration (clampedEng engagement_rate) * 100 ≤ ((350 : ℤ) : ℚ) / 10 := by
      push_cast
      linarith [hpen.2]
    have := round1_le h
    push_cast at this
    linarith
  · have h : ((300 : ℤ) : ℚ) / 100 ≤ targetArpu (impliedRevenuePerFan (clampedViews avg_views)
        (clampedCpm avg_cpm) (clampedFollowers followers)) := by
      push_cast
      linarith [harpu.1]
    have := le_round2 h
    push_cast at this
    linarith
  · have h : targetArpu (impliedRevenuePerFan (clampedViews avg_views)
        (clampedCpm avg_cpm) (clampedFollowers followers)) ≤ ((3000 : ℤ) : ℚ) / 100 := by
      push_cast
      linarith [harpu.2]
    have := round2_le h
    push_cast at this
    linarith

theorem ppv_gap (s : ℚ) :
    round2 (max 4 (s * (6/10))) + 2 ≤
    round2 (max (round2 (max 4 (s * (6/10))) + 2) (s * 2)) := by
  have hlow : round2 (max 4 (s * (6/10))) =
      ((roundHalfEven (max 4 (s * (6/10)) * 100) : ℤ) : ℚ) / 100 := rfl
  set m : ℤ := roundHalfEven (max 4 (s * (6/10)) * 100) with hm
  have h : ((m + 200 : ℤ) : ℚ) / 100 ≤ max (round2 (max 4 (s * (6/10))) + 2) (s * 2) := by
    have he : ((m + 200 : ℤ) : ℚ) / 100 = round2 (max 4 (s * (6/10))) + 2 := by
      rw [hlow]; push_cast; ring
    rw [he]
    exact le_max_left _ _
  have h2 := le_round2 h
  rw [hlow] at h2 ⊢
  push_cast at h2 ⊢
  linarith

theorem round2_testPrice_bounds (s cp : ℚ) (rp : String) :
    3 ≤ round2 (testPrice s cp rp) ∧ round2 (testPrice s cp rp) ≤ 100 := by
  have hlo := lo_le_npClip (testPriceFromDelta ((s - cp) / cp * 100) s cp rp) 3 100 (by norm_num)
  have hhi := npClip_le_hi (testPriceFromDelta ((s - cp) / cp * 100) s cp rp) 3 100
  have h1 : ((300 : ℤ) : ℚ) / 100 ≤ testPrice s cp rp := by
    unfold testPrice
    push_cast
    linarith
  have h2 : testPrice s cp rp ≤ ((10000 : ℤ) : ℚ) / 100 := by
    unfold testPrice
    push_cast
    linarith
  constructor
  · have := le_round2 h1; push_cast at this; linarith
  · have := round2_le h2; push_cast at this; linarith

/-- C4: for every input, the returned `suggested_sub_price` lies in
[5.0, 50.0] and is an exact multiple of 0.5. -/
theorem C4_suggested_price_bounds (followers estimated_subscribers : ℤ)
    (avg_views engagement_rate avg_cpm current_price : ℚ) (risk_profile : String) :
    5 ≤ (run_pricing_engine followers estimated_subscribers avg_views engagement_rate
        avg_cpm current_price risk_profile).suggested_sub_price ∧
    (run_pricing_engine followers estimated_subscribers avg_views engagement_rate
        avg_cpm current_price risk_profile).suggested_sub_price ≤ 50 ∧
    ∃ k : ℤ, (run_pricing_engine followers estimated_subscribers avg_views engagement_rate
        avg_cpm current_price risk_profile).suggested_sub_price = (k : ℚ) / 2 := by
  simp only [run_pricing_engine]
  exact suggestedSubPrice_props _ _

/-- C5: for every input, the returned `ppv_high` is at least `ppv_low + 2.0`. -/
theorem C5_ppv_band_gap (followers estimated_subscribers : ℤ)
    (avg_views engagement_rate avg_cpm current_price : ℚ) (risk_profile : String) :
    (run_pricing_engine followers estimated_subscribers avg_views engagement_rate
        avg_cpm current_price risk_profile).ppv_low + 2 ≤
    (run_pricing_engine followers estimated_subscribers avg_views engagement_rate
        avg_cpm current_price risk_profile).ppv_high := by
  simp only [run_pricing_engine]
  exact ppv_gap _

/-- C6: for every input, the `test_price` of the returned pricing test lies
in [3.0, 100.0]. -/
theorem C6_test_price_bounds (followers estimated_subscribers : ℤ)
    (avg_views engagement_rate avg_cpm current_price : ℚ) (risk_profile : String) :
    3 ≤ (run_pricing_engine followers estimated_subscribers avg_views engagement_rate
        avg_cpm current_price risk_profile).pricing_test.test_price ∧
    (run_pricing_engine followers estimated_subscribers avg_views engagement_rate
        avg_cpm current_price risk_profile).pricing_test.test_price ≤ 100 := by
  simp only [run_pricing_engine]
  exact round2_testPrice_bounds _ _ _

/-- C10: the output of `run_pricing_engine` does not depend on the
`estimated_subscribers` argument: two calls differing only in it return
identical results. -/
theorem C10_subscribers_independent (followers e1 e2 : ℤ)
    (avg_views engagement_rate avg_cpm current_price : ℚ) (risk_profile : String) :
    run_pricing_engine followers e1 avg_views engagement_rate
        avg_cpm current_price risk_profile =
    run_pricing_engine followers e2 avg_views engagement_rate
        avg_cpm current_price risk_profile := rfl

/-! ### Risk-profile normalization and risk-level characterization -/

theorem normalizeRiskProfile_fallback (rp : String)
    (h : ¬(pyLower rp = "conservative" ∨ pyLower rp = "balanced" ∨
          pyLower rp = "aggressive")) :
    normalizeRiskProfile rp = "balanced" := by
  by_cases he : rp = ""
  · subst he; decide
  · unfold normalizeRiskProfile
    dsimp only
    rw [if_neg he, if_neg h]

theorem half_halfRound (x : ℚ) : ∃ k : ℤ, halfRound x = (k : ℚ) / 2 := ⟨_, rfl⟩

theorem half_testPrice (s cp : ℚ) (rp : String) (hs : ∃ k : ℤ, s = (k : ℚ) / 2) :
    ∃ m : ℤ, testPrice s cp rp = (m : ℚ) / 2 := by
  have hraw : ∃ j : ℤ, testPriceFromDelta ((s - cp) / cp * 100) s cp rp = (j : ℚ) / 2 := by
    unfold testPriceFromDelta
    split
    · exact half_halfRound _
    split
    · exact hs
    split
    · exact half_halfRound _
    split
    · exact hs
    · exact half_halfRound _
  obtain ⟨j, hj⟩ := hraw
  unfold testPrice npClip
  rw [hj]
  rcases le_total ((j : ℚ) / 2) 3 with h | h
  · rw [max_eq_right h, min_eq_left (by norm_num : (3 : ℚ) ≤ 100)]
    exact ⟨6, by norm_num⟩
  · rw [max_eq_left h]
    rcases le_total ((j : ℚ) / 2) 100 with h2 | h2
    · rw [min_eq_left h2]
      exact ⟨j, rfl⟩
    · rw [min_eq_right h2]
      exact ⟨200, by norm_num⟩

theorem risk_of_neg (pcp : ℚ) (h : pcp < 0) : (effectsFromPcp pcp).2.2 = "low" := by
  unfold effectsFromPcp
  rw [if_pos h]

theorem risk_of_mid (pcp : ℚ) (h0 : 0 ≤ pcp) (h1 : pcp ≤ 20) :
    (effectsFromPcp pcp).2.2 = "medium" := by
  unfold effectsFromPcp
  rw [if_neg (not_lt.mpr h0), if_pos (⟨h0, h1⟩ : 0 ≤ pcp ∧ pcp ≤ 20)]

theorem risk_of_big (pcp : ℚ) (h : 20 < pcp) : (effectsFromPcp pcp).2.2 = "high" := by
  have h0 : ¬ pcp < 0 := by linarith
  unfold effectsFromPcp
  rw [if_neg h0, if_neg (fun hc => absurd hc.2 (not_le.mpr h))]

theorem risk_level_iff_aux (tp cp : ℚ) (hcp : 0 < cp) :
    ((effectsFromPcp ((tp - cp) / cp * 100)).2.2 = "low" ↔ tp < cp) ∧
    ((effectsFromPcp ((tp - cp) / cp * 100)).2.2 = "medium" ↔
      cp ≤ tp ∧ tp ≤ cp * (120/100)) ∧
    ((effectsFromPcp ((tp - cp) / cp * 100)).2.2 = "high" ↔ cp * (120/100) < tp) := by
  have key0 : (tp - cp) / cp * 100 < 0 ↔ tp < cp := by
    rw [div_mul_eq_mul_div, div_lt_iff₀ hcp]
    constructor <;> intro h1 <;> nlinarith
  have key1 : 0 ≤ (tp - cp) / cp * 100 ↔ cp ≤ tp := by
    rw [div_mul_eq_mul_div, le_div_iff₀ hcp]
    constructor <;> intro h1 <;> nlinarith
  have key2 : (tp - cp) / cp * 100 ≤ 20 ↔ tp ≤ cp * (120/100) := by
    rw [div_mul_eq_mul_div, div_le_iff₀ hcp]
    constructor <;> intro h1 <;> nlinarith
  by_cases hb0 : (tp - cp) / cp * 100 < 0
  · have hr := risk_of_neg _ hb0
    have htp : tp < cp := key0.mp hb0
    rw [hr]
    refine ⟨⟨fun _ => htp, fun _ => rfl⟩, ?_, ?_⟩
    · constructor
      · intro hs; exact absurd hs (by decide)
      · intro hcon; exact absurd htp (not_lt.mpr hcon.1)
    · constructor
      · intro hs; exact absurd hs (by decide)
      · intro hcon; nlinarith
  · push_neg at hb0
    have hge : cp ≤ tp := key1.mp hb0
    by_cases hb1 : (tp - cp) / cp * 100 ≤ 20
    · have hr := risk_of_mid _ hb0 hb1
      have hle : tp ≤ cp * (120/100) := key2.mp hb1
      rw [hr]
      refine ⟨?_, ⟨fun _ => ⟨hge, hle⟩, fun _ => rfl⟩, ?_⟩
      · constructor
        · intro hs; exact absurd hs (by decide)
        · intro hlt2; exact absurd hlt2 (not_lt.mpr hge)
      · constructor
        · intro hs; exact absurd hs (by decide)
        · intro hlt2; exact absurd hlt2 (not_lt.mpr hle)
    · push_neg at hb1
      have hr := risk_of_big _ hb1
      have hgt2 : cp * (120/100) < tp := by
        by_contra hc
        push_neg at hc
        exact absurd (key2.mpr hc) (not_le.mpr hb1)
      rw [hr]
      refine ⟨?_, ?_, ⟨fun _ => hgt2, fun _ => rfl⟩⟩
      · constructor
        · intro hs; exact absurd hs (by decide)
        · intro hlt2; nlinarith
      · constructor
        · intro hs; exact absurd hs (by decide)
        · intro hcon; exact absurd hgt2 (not_lt.mpr hcon.2)

theorem risk_level_iff_full (s cp : ℚ) (rp : String) (hcp : 0 < cp)
    (hs : ∃ k : ℤ, s = (k : ℚ) / 2) :
    ((effectsFromPcp ((testPrice s cp rp - cp) / cp * 100)).2.2 = "low" ↔
      round2 (testPrice s cp rp) < cp) ∧
    ((effectsFromPcp ((testPrice s cp rp - cp) / cp * 100)).2.2 = "medium" ↔
      cp ≤ round2 (testPrice s cp rp) ∧ round2 (testPrice s cp rp) ≤ cp * (120/100)) ∧
    ((effectsFromPcp ((testPrice s cp rp - cp) / cp * 100)).2.2 = "high" ↔
      cp * (120/100) < round2 (testPrice s cp rp)) := by
  obtain ⟨k, hk⟩ := half_testPrice s cp rp hs
  have hround : round2 (testPrice s cp rp) = testPrice s cp rp := by
    rw [hk]
    exact round2_half_int k
  rw [hround]
  exact risk_level_iff_aux _ _ hcp

/-- C3: for every input, the returned risk_level is "low" iff the returned
test_price is below the (clamped) current price, "medium" iff the test price
is between the current price and 1.20 times it, and "high" iff the test
price exceeds 1.20 times the current price. -/
theorem C3_risk_level_iff (followers estimated_subscribers : ℤ)
    (avg_views engagement_rate avg_cpm current_price : ℚ) (risk_profile : String) :
    ((run_pricing_engine followers estimated_subscribers avg_views engagement_rate
        avg_cpm current_price risk_profile).pricing_test.risk_level = "low" ↔
      (run_pricing_engine followers estimated_subscribers avg_views engagement_rate
        avg_cpm current_price risk_profile).pricing_test.test_price <
        clampedPrice current_price) ∧
    ((run_pricing_engine followers estimated_subscribers avg_views engagement_rate
        avg_cpm current_price risk_profile).pricing_test.risk_level = "medium" ↔
      clampedPrice current_price ≤
        (run_pricing_engine followers estimated_subscribers avg_views engagement_rate
          avg_cpm current_price risk_profile).pricing_test.test_price ∧
      (run_pricing_engine followers estimated_subscribers avg_views engagement_rate
        avg_cpm current_price risk_profile).pricing_test.test_price ≤
        clampedPrice current_price * (120/100)) ∧
    ((run_pricing_engine followers estimated_subscribers avg_views engagement_rate
        avg_cpm current_price risk_profile).pricing_test.risk_level = "high" ↔
      clampedPrice current_price * (120/100) <
        (run_pricing_engine followers estimated_subscribers avg_views engagement_rate
          avg_cpm current_price risk_profile).pricing_test.test_price) := by
  have hcp : 0 < clampedPrice current_price := lt_of_lt_of_le one_pos (le_max_right _ _)
  simp only [run_pricing_engine]
  exact risk_level_iff_full _ _ _ hcp (suggestedSubPrice_props _ _).2.2

/-- C7 counterexample: "Conservative" is not in the literal set
{conservative, balanced, aggressive}, yet the engine does not behave as
with "balanced" (it lowercases first, so it behaves as "conservative":
the test duration is 21 days instead of 14). -/
theorem C7_counterexample :
    ¬(("Conservative" : String) = "conservative" ∨ ("Conservative" : String) = "balanced" ∨
      ("Conservative" : String) = "aggressive") ∧
    run_pricing_engine 10000 10000 3000 (7/2) 20 12 "Conservative" ≠
      run_pricing_engine 10000 10000 3000 (7/2) 20 12 "balanced" := by
  refine ⟨by decide, fun h => ?_⟩
  have h21 : (run_pricing_engine 10000 10000 3000 (7/2) 20 12
      "Conservative").pricing_test.duration_days = 21 := by decide
  have h14 : (run_pricing_engine 10000 10000 3000 (7/2) 20 12
      "balanced").pricing_test.duration_days = 14 := by decide
  rw [h, h14] at h21
  exact absurd h21 (by decide)

/-- C7 amended: for every numeric input, calling the engine with a
risk_profile string whose lowercase form is not in
{conservative, balanced, aggressive} returns the same result as calling it
with risk_profile = "balanced". -/
theorem C7_unrecognized_profile (followers estimated_subscribers : ℤ)
    (avg_views engagement_rate avg_cpm current_price : ℚ) (risk_profile : String)
    (h : ¬(pyLower risk_profile = "conservative" ∨ pyLower risk_profile = "balanced" ∨
          pyLower risk_profile = "aggressive")) :
    run_pricing_engine followers estimated_subscribers avg_views engagement_rate
        avg_cpm current_price risk_profile =
    run_pricing_engine followers estimated_subscribers avg_views engagement_rate
        avg_cpm current_price "balanced" := by
  have h1 := normalizeRiskProfile_fallback risk_profile h
  have h2 : normalizeRiskProfile "balanced" = "balanced" := by decide
  simp only [run_pricing_engine, h1, h2]

/-- C7 witness: the fallback theorem applied to the concrete profile "yolo". -/
theorem C7_witness :
    run_pricing_engine 10000 10000 3000 (7/2) 20 12 "yolo" =
    run_pricing_engine 10000 10000 3000 (7/2) 20 12 "balanced" :=
  C7_unrecognized_profile 10000 10000 3000 (7/2) 20 12 "yolo" (by decide)

/-- C9 counterexample: on the Scenario A inputs the returned
`uplift_pct_vs_current` is -29.17, which is not an integer multiple of 0.1,
so not every percentage figure is rounded to 1 decimal place. -/
theorem C9_counterexample :
    ¬((∃ n : ℤ, (run_pricing_engine 10000 10000 3000 (7/2) 20 12 "balanced").implied_revenue_per_fan = (n : ℚ) / 100) ∧
      (∃ n : ℤ, (run_pricing_engine 10000 10000 3000 (7/2) 20 12 "balanced").target_arpu = (n : ℚ) / 100) ∧
      (∃ n : ℤ, (run_pricing_engine 10000 10000 3000 (7/2) 20 12 "balanced").pricing_test.current_price = (n : ℚ) / 100) ∧
      (∃ n : ℤ, (run_pricing_engine 10000 10000 3000 (7/2) 20 12 "balanced").pricing_test.test_price = (n : ℚ) / 100) ∧
      (∃ n : ℤ, (run_pricing_engine 10000 10000 3000 (7/2) 20 12 "balanced").ppv_low = (n : ℚ) / 100) ∧
      (∃ n : ℤ, (run_pricing_engine 10000 10000 3000 (7/2) 20 12 "balanced").ppv_high = (n : ℚ) / 100) ∧
      (∃ n : ℤ, (run_pricing_engine 10000 10000 3000 (7/2) 20 12 "balanced").uplift_pct_vs_current = (n : ℚ) / 10) ∧
      (∃ n : ℤ, (run_pricing_engine 10000 10000 3000 (7/2) 20 12 "balanced").target_sub_penetration = (n : ℚ) / 10) ∧
      (∃ n : ℤ, (run_pricing_engine 10000 10000 3000 (7/2) 20 12 "balanced").pricing_test.expected_conversion_change_pct = (n : ℚ) / 10) ∧
      (∃ n : ℤ, (run_pricing_engine 10000 10000 3000 (7/2) 20 12 "balanced").pricing_test.expected_mrr_change_pct = (n : ℚ) / 10)) := by
  intro h
  obtain ⟨n, hn⟩ := h.2.2.2.2.2.2.1
  rw [scenarioA_eval] at hn
  norm_num at hn
  have h10 : (n : ℚ) * 10 = -2917 := by
    field_simp at hn
    linarith
  have hz : n * 10 = -2917 := by exact_mod_cast h10
  omega

/-- C9 amended: every monetary output field (implied_revenue_per_fan,
target_arpu, current_price, test_price, ppv_low, ppv_high) is an integer
multiple of 0.01, and the percentage fields target_sub_penetration,
expected_conversion_change_pct and expected_mrr_change_pct are integer
multiples of 0.1 — but uplift_pct_vs_current is rounded to 2 decimals
(an integer multiple of 0.01), not 1. -/
theorem C9_rounding (followers estimated_subscribers : ℤ)
    (avg_views engagement_rate avg_cpm current_price : ℚ) (risk_profile : String) :
    (∃ n : ℤ, (run_pricing_engine followers estimated_subscribers avg_views engagement_rate
        avg_cpm current_price risk_profile).implied_revenue_per_fan = (n : ℚ) / 100) ∧
    (∃ n : ℤ, (run_pricing_engine followers estimated_subscribers avg_views engagement_rate
        avg_cpm current_price risk_profile).target_arpu = (n : ℚ) / 100) ∧
    (∃ n : ℤ, (run_pricing_engine followers estimated_subscribers avg_views engagement_rate
        avg_cpm current_price risk_profile).pricing_test.current_price = (n : ℚ) / 100) ∧
    (∃ n : ℤ, (run_pricing_engine followers estimated_subscribers avg_views engagement_rate
        avg_cpm current_price risk_profile).pricing_test.test_price = (n : ℚ) / 100) ∧
    (∃ n : ℤ, (run_pricing_engine followers estimated_subscribers avg_views engagement_rate
        avg_cpm current_price risk_profile).ppv_low = (n : ℚ) / 100) ∧
    (∃ n : ℤ, (run_pricing_engine followers estimated_subscribers avg_views engagement_rate
        avg_cpm current_price risk_profile).ppv_high = (n : ℚ) / 100) ∧
    (∃ n : ℤ, (run_pricing_engine followers estimated_subscribers avg_views engagement_rate
        avg_cpm current_price risk_profile).uplift_pct_vs_current = (n : ℚ) / 100) ∧
    (∃ n : ℤ, (run_pricing_engine followers estimated_subscribers avg_views engagement_rate
        avg_cpm current_price risk_profile).target_sub_penetration = (n : ℚ) / 10) ∧
    (∃ n : ℤ, (run_pricing_engine followers estimated_subscribers avg_views engagement_rate
        avg_cpm current_price risk_profile).pricing_test.expected_conversion_change_pct = (n : ℚ) / 10) ∧
    (∃ n : ℤ, (run_pricing_engine followers estimated_subscribers avg_views engagement_rate
        avg_cpm current_price risk_profile).pricing_test.expected_mrr_change_pct = (n : ℚ) / 10) := by
  simp only [run_pricing_engine, round2, round1]
  exact ⟨⟨_, rfl⟩, ⟨_, rfl⟩, ⟨_, rfl⟩, ⟨_, rfl⟩, ⟨_, rfl⟩, ⟨_, rfl⟩, ⟨_, rfl⟩,
    ⟨_, rfl⟩, ⟨_, rfl⟩, ⟨_, rfl⟩⟩

/-- C8: the engine is total — the fallible variant (which fails on any
zero divisor, as Python division would) always succeeds and agrees with
the total function — and every numeric input is clamped to its documented
floor, making every computed divisor nonzero. -/
theorem C8_total (followers estimated_subscribers : ℤ)
    (avg_views engagement_rate avg_cpm current_price : ℚ) (risk_profile : String) :
    run_pricing_engine_checked followers estimated_subscribers avg_views engagement_rate
        avg_cpm current_price risk_profile =
      some (run_pricing_engine followers estimated_subscribers avg_views engagement_rate
        avg_cpm current_price risk_profile) ∧
    1 ≤ clampedFollowers followers ∧
    1 ≤ clampedSubs followers estimated_subscribers ∧
    1 ≤ clampedViews avg_views ∧
    1/10 ≤ clampedEng engagement_rate ∧
    5/10 ≤ clampedCpm avg_cpm ∧
    1 ≤ clampedPrice current_price ∧
    (clampedFollowers followers : ℚ) ≠ 0 ∧
    targetPenetration (clampedEng engagement_rate) ≠ 0 ∧
    clampedPrice current_price ≠ 0 := by
  have hfl : (clampedFollowers followers : ℚ) ≠ 0 := by
    have h1 : (1 : ℤ) ≤ clampedFollowers followers := le_max_right _ _
    exact Int.cast_ne_zero.mpr (by omega)
  have hpen : targetPenetration (clampedEng engagement_rate) ≠ 0 :=
    ne_of_gt (targetPenetration_pos _)
  have hcp : clampedPrice current_price ≠ 0 :=
    ne_of_gt (lt_of_lt_of_le one_pos (le_max_right _ _))
  refine ⟨?_, le_max_right _ _, le_max_right _ _, le_max_right _ _, le_max_right _ _,
    le_max_right _ _, le_max_right _ _, hfl, hpen, hcp⟩
  simp only [run_pricing_engine_checked, run_pricing_engine, safeDiv,
    impliedRevenuePerFan, suggestedSubPrice, testPrice,
    if_neg hfl, if_neg hpen, if_neg hcp, Option.some_bind]
